import Mathlib

/-!
Verification of the Box representation-resolution pipeline
(`box_ai_agents_toolkit/box_api_file_representation.py`) against its
specification.

The Python module is shallowly embedded below.  The two external
collaborators (the Box SDK client used for the metadata probe, and the
HTTP fetcher `_do_request`, whose implementation lives outside the
embedded module) are modelled as an oracle supplying the outcome of each
external call.  Python exceptions are modelled with `Except`; Python
dictionaries returned by the pipeline are records of optional fields
(each return site of the source builds a literal dict whose keys are
among `content`, `message`, `error`, `status`).
-/

namespace BoxToolkit

/-- Python exceptions that can flow through the pipeline:
`BoxAPIError` (raised by the SDK client), `ValueError` (raised by
`FileRepresentationStatus(...)` on an unrecognized state string) and
`requests.HTTPError` (raised by the HTTP fetcher, carrying
`e.response.reason`). -/
inductive PyExn
  | boxAPIError (message : String)
  | valueError (value : String)
  | httpError (reason : String)
  deriving DecidableEq, Repr

/-- `class RepresentationType(Enum)` (source lines 19-21). -/
inductive RepresentationType
  | MARKDOWN
  | EXTRACTED_TEXT
  deriving DecidableEq, Repr

/-- The `.value` of each `RepresentationType` member. -/
def RepresentationType.value : RepresentationType → String
  | .MARKDOWN => "markdown"
  | .EXTRACTED_TEXT => "extracted_text"

/-- `class FileRepresentationStatus(Enum)` (source lines 24-30). -/
inductive FileRepresentationStatus
  | NONE
  | PENDING
  | SUCCESS
  | ERROR
  | IMPOSSIBLE
  | UNKNOWN
  deriving DecidableEq, Repr

/-- The `.value` of each `FileRepresentationStatus` member. -/
def FileRepresentationStatus.value : FileRepresentationStatus → String
  | .NONE => "none"
  | .PENDING => "pending"
  | .SUCCESS => "success"
  | .ERROR => "error"
  | .IMPOSSIBLE => "impossible"
  | .UNKNOWN => "unknown"

/-- The enum construction `FileRepresentationStatus(s)` (source line 84):
it yields the member whose `.value` equals `s` and raises `ValueError`
for any other string. -/
def FileRepresentationStatus.ofString (s : String) :
    Except PyExn FileRepresentationStatus :=
  if s = "none" then .ok .NONE
  else if s = "pending" then .ok .PENDING
  else if s = "success" then .ok .SUCCESS
  else if s = "error" then .ok .ERROR
  else if s = "impossible" then .ok .IMPOSSIBLE
  else if s = "unknown" then .ok .UNKNOWN
  else .error (.valueError s)

/-- The `status` sub-object of a representation entry (`status.state`). -/
structure RawStatus where
  state : String
  deriving DecidableEq, Repr

/-- The `info` sub-object of a representation entry (`info.url`). -/
structure RawInfo where
  url : Option String
  deriving DecidableEq, Repr

/-- The `content` sub-object of a representation entry
(`content.url_template`). -/
structure RawContent where
  url_template : Option String
  deriving DecidableEq, Repr

/-- One entry of `file.representations.entries`. -/
structure RawEntry where
  status : Option RawStatus
  info : Option RawInfo
  content : Option RawContent
  deriving DecidableEq, Repr

/-- The `representations` object of the probed file. -/
structure RawRepresentations where
  entries : List RawEntry
  deriving DecidableEq, Repr

/-- The object returned by `client.files.get_file_by_id` as far as the
pipeline reads it. -/
structure RawFile where
  representations : Option RawRepresentations
  deriving DecidableEq, Repr

/-- Python truthiness of an optional string (`if obj and obj.url:`):
both `None` and the empty string are falsy, so only a non-empty string
is kept. -/
def pyTruthyStr : Option String → Option String
  | some s => if s = "" then none else some s
  | none => none

/-- `class FileRepresentationResult` (source lines 33-42). -/
structure FileRepresentationResult where
  status : FileRepresentationStatus
  info_url : Option String := none
  content_url : Option String := none
  deriving DecidableEq, Repr

/-- A Python dict returned by the pipeline, with keys among
`content`, `message`, `error`, `status`; an absent key is `none`. -/
structure PipeDict where
  content : Option String := none
  message : Option String := none
  error : Option String := none
  status : Option String := none
  deriving DecidableEq, Repr

/-- Modelled from the spec: the two external collaborators, absent from
the embedded module.  `probe rt i` is what `client.files.get_file_by_id`
returns (or raises) on the `i`-th probe for representation kind `rt`
within one top-level call ("must expose get file by id with
representation hint ... must raise a distinguishable error type on
not-found/forbidden").  `doRequest url` is the HTTP fetcher
`_do_request` ("GET(url) -> bytes, raising a distinguishable HTTP error
exposing a human-readable reason string on non-2xx"); the decoded
response body is modelled as a string. -/
structure ClientOracle where
  probe : RepresentationType → Nat → Except PyExn RawFile
  doRequest : String → Except PyExn String

/-- Decidable equality of `Except` values, needed to compare recorded
call outcomes. -/
instance instDecEqExcept {ε α : Type} [DecidableEq ε] [DecidableEq α] :
    DecidableEq (Except ε α) := fun x y =>
  match x, y with
  | .ok a, .ok b =>
    if h : a = b then .isTrue (by rw [h]) else .isFalse (by simp [h])
  | .error a, .error b =>
    if h : a = b then .isTrue (by rw [h]) else .isFalse (by simp [h])
  | .ok _, .error _ => .isFalse (by simp)
  | .error _, .ok _ => .isFalse (by simp)

/-- Externally visible actions of one pipeline run, in order:
a probe (recording the descriptor or exception the status check
produced), a call of the generation requester (recording the `info_url`
it was given), the fixed 5-second sleep, and a call of the downloader
(recording the `url_template` it was given). -/
inductive PipeEvent
  | probeEv (rt : RepresentationType) (res : Except PyExn FileRepresentationResult)
  | genRequestEv (info_url : Option String)
  | sleepEv
  | downloadEv (url_template : Option String)
  deriving DecidableEq, Repr

/-- `_file_representation_status_check` (source lines 45-109), as a
function of the probe response.  A `BoxAPIError` from the client is
logged and re-raised; a missing entry (no `representations` object or an
empty/absent `entries` list) yields `IMPOSSIBLE` with no URLs; an entry
with a truthy `status` has its `state` string converted by the enum
constructor (which may raise `ValueError`); the URLs are extracted
independently of the status, subject to Python truthiness. -/
def _file_representation_status_check (resp : Except PyExn RawFile) :
    Except PyExn FileRepresentationResult :=
  match resp with
  | .error e => .error e
  | .ok file =>
    let file_representation : Option RawEntry :=
      match file.representations with
      | some reps => reps.entries.head?
      | none => none
    let statusE : Except PyExn FileRepresentationStatus :=
      match file_representation with
      | none => .ok .IMPOSSIBLE
      | some fr =>
        match fr.status with
        | some st => FileRepresentationStatus.ofString st.state
        | none => .ok .IMPOSSIBLE
    match statusE with
    | .error e => .error e
    | .ok st =>
      let info_url : Option String :=
        match file_representation with
        | some fr =>
          match fr.info with
          | some i => pyTruthyStr i.url
          | none => none
        | none => none
      let content_url : Option String :=
        match file_representation with
        | some fr =>
          match fr.content with
          | some c => pyTruthyStr c.url_template
          | none => none
        | none => none
      .ok { status := st, info_url := info_url, content_url := content_url }

/-- `_request_file_representation_generation` (source lines 112-119):
with no `info_url` it returns an error dict without contacting the
service; otherwise it GETs `info_url` (any exception propagates — there
is no try block) and returns a message dict, discarding the body. -/
def _request_file_representation_generation (o : ClientOracle)
    (info_url : Option String) : Except PyExn PipeDict :=
  match info_url with
  | none => .ok { error := some "No URL provided for representation generation." }
  | some url =>
    match o.doRequest url with
    | .error e => .error e
    | .ok _ => .ok { message := some "Representation generation requested." }

/-- Replacement of the leftmost occurrence first, scanning left to
right and skipping past each replaced occurrence (non-overlapping), on
character lists; the fuel argument (instantiated with the list length)
only makes the recursion structural. -/
def replaceFuel (pat rep : List Char) : Nat → List Char → List Char
  | 0, s => s
  | _ + 1, [] => []
  | n + 1, c :: cs =>
    if !pat.isEmpty && pat.isPrefixOf (c :: cs) then
      rep ++ replaceFuel pat rep n ((c :: cs).drop pat.length)
    else
      c :: replaceFuel pat rep n cs

/-- Python `s.replace(pat, rep)` for a non-empty pattern: every
non-overlapping occurrence of `pat` in `s`, found left to right, is
replaced by `rep`. -/
def pyReplace (s pat rep : String) : String :=
  ⟨replaceFuel pat.data rep.data s.data.length s.data⟩

/-- The URL resolution step of `_download_file_representation`
(source line 128): `url_template.replace("{+asset_path}", "")`. -/
def resolve_url_template (url_template : String) : String :=
  pyReplace url_template "\x7b+asset_path\x7d" ""

/-- `_download_file_representation` (source lines 122-135): with no
template it returns an error dict; otherwise it GETs the resolved URL,
returning a content dict with the UTF-8 decoded body, and catching only
`HTTPError` (rendered as an error dict with the response reason); any
other exception propagates. -/
def _download_file_representation (o : ClientOracle)
    (url_template : Option String) : Except PyExn PipeDict :=
  match url_template with
  | none => .ok { error := some "No URL provided for representation download." }
  | some t =>
    match o.doRequest (resolve_url_template t) with
    | .ok response => .ok { content := some response }
    | .error (.httpError reason) => .ok { error := some reason }
    | .error e => .error e

/-- `_process_file_representation` (source lines 138-190), instrumented
with the list of externally visible events.  `probe_idx` numbers the
probes so the oracle can answer the first and second probe differently;
the top-level call has `is_recursive = false` and `probe_idx = 0`. -/
def _process_file_representation (o : ClientOracle) (rt : RepresentationType)
    (file_id : String) (is_recursive : Bool) (probe_idx : Nat) :
    Except PyExn PipeDict × List PipeEvent :=
  match _file_representation_status_check (o.probe rt probe_idx) with
  | .error e => (.error e, [.probeEv rt (.error e)])
  | .ok representation =>
    match representation.status with
    | .NONE =>
      match _request_file_representation_generation o representation.info_url with
      | .error e =>
        (.error e, [.probeEv rt (.ok representation),
                    .genRequestEv representation.info_url])
      | .ok _ =>
        match is_recursive with
        | false =>
          let r := _process_file_representation o rt file_id true (probe_idx + 1)
          (r.1, .probeEv rt (.ok representation)
                  :: .genRequestEv representation.info_url
                  :: .sleepEv :: r.2)
        | true =>
          (.ok { message := some (rt.value ++ " representation generation requested."),
                 status := some representation.status.value },
           [.probeEv rt (.ok representation),
            .genRequestEv representation.info_url])
    | .PENDING =>
      match is_recursive with
      | false =>
        let r := _process_file_representation o rt file_id true (probe_idx + 1)
        (r.1, .probeEv rt (.ok representation) :: .sleepEv :: r.2)
      | true =>
        (.ok { message := some (rt.value ++
                 " representation is still being generated. Please try again later."),
               status := some representation.status.value },
         [.probeEv rt (.ok representation)])
    | .SUCCESS =>
      (_download_file_representation o representation.content_url,
       [.probeEv rt (.ok representation),
        .downloadEv representation.content_url])
    | .ERROR =>
      (.ok { error := some ("Error generating " ++ rt.value ++ " representation."),
             status := some representation.status.value },
       [.probeEv rt (.ok representation)])
    | .IMPOSSIBLE =>
      (.ok { error := some (rt.value ++ " representation is impossible for this file."),
             status := some representation.status.value },
       [.probeEv rt (.ok representation)])
    | .UNKNOWN =>
      (.ok { error := some ("Unknown status for " ++ rt.value ++ " representation."),
             status := some FileRepresentationStatus.UNKNOWN.value },
       [.probeEv rt (.ok representation)])
termination_by (if is_recursive then 0 else 1)
decreasing_by all_goals simp

/-- `box_file_text_extract` (source lines 193-223): run the pipeline for
`MARKDOWN`; unless the result dict's `status` is `impossible`, `error`
or `unknown`, return it; otherwise fall back to `EXTRACTED_TEXT`.  The
surrounding try/except catches only `BoxAPIError` (from either attempt),
rendering it as an error dict; any other exception escapes. -/
def box_file_text_extract (o : ClientOracle) (file_id : String) :
    Except PyExn PipeDict × List PipeEvent :=
  let r1 := _process_file_representation o .MARKDOWN file_id false 0
  match r1.1 with
  | .error (.boxAPIError m) => (.ok { error := some ("Box API Error: " ++ m) }, r1.2)
  | .error e => (.error e, r1.2)
  | .ok representation =>
    if representation.status ≠ some FileRepresentationStatus.IMPOSSIBLE.value
        ∧ representation.status ≠ some FileRepresentationStatus.ERROR.value
        ∧ representation.status ≠ some FileRepresentationStatus.UNKNOWN.value then
      (.ok representation, r1.2)
    else
      let r2 := _process_file_representation o .EXTRACTED_TEXT file_id false 0
      match r2.1 with
      | .error (.boxAPIError m) =>
        (.ok { error := some ("Box API Error: " ++ m) }, r1.2 ++ r2.2)
      | .error e => (.error e, r1.2 ++ r2.2)
      | .ok rep2 => (.ok rep2, r1.2 ++ r2.2)

/-- Whether an event is a probe (an invocation of the status check). -/
def PipeEvent.isProbe : PipeEvent → Bool
  | .probeEv _ _ => true
  | _ => false

/-- Whether an event is an invocation of the generation requester. -/
def PipeEvent.isGenRequest : PipeEvent → Bool
  | .genRequestEv _ => true
  | _ => false

/-- Whether an event is the fixed sleep between the two probes. -/
def PipeEvent.isSleep : PipeEvent → Bool
  | .sleepEv => true
  | _ => false

/-- Whether an event is an invocation of the downloader. -/
def PipeEvent.isDownload : PipeEvent → Bool
  | .downloadEv _ => true
  | _ => false

/-- Number of probes in a trace. -/
def countProbes (tr : List PipeEvent) : Nat :=
  (tr.filter PipeEvent.isProbe).length

/-- Number of generation-requester invocations in a trace. -/
def countGenRequests (tr : List PipeEvent) : Nat :=
  (tr.filter PipeEvent.isGenRequest).length

/-- Number of sleeps in a trace. -/
def countSleeps (tr : List PipeEvent) : Nat :=
  (tr.filter PipeEvent.isSleep).length

/-- Number of downloader invocations in a trace. -/
def countDownloads (tr : List PipeEvent) : Nat :=
  (tr.filter PipeEvent.isDownload).length

/-- Number of primary keys (`content`, `message`, `error`) present in a
result dict. -/
def PipeDict.primaryCount (d : PipeDict) : Nat :=
  (if d.content.isSome then 1 else 0)
    + (if d.message.isSome then 1 else 0)
    + (if d.error.isSome then 1 else 0)

/-- Whether an event is a probe for the given representation kind. -/
def PipeEvent.isProbeFor (rt : RepresentationType) : PipeEvent → Bool
  | .probeEv rt' _ => if rt' = rt then true else false
  | _ => false

/-- Number of probes for the given representation kind in a trace. -/
def probesFor (rt : RepresentationType) (tr : List PipeEvent) : Nat :=
  (tr.filter (PipeEvent.isProbeFor rt)).length

theorem countProbes_nil : countProbes [] = 0 := rfl

theorem countProbes_cons (e : PipeEvent) (tr : List PipeEvent) :
    countProbes (e :: tr)
      = (if e.isProbe then 1 else 0) + countProbes tr := by
  simp only [countProbes, List.filter_cons]
  cases h : e.isProbe <;> simp [h, Nat.add_comm]

theorem countGenRequests_nil : countGenRequests [] = 0 := rfl

theorem countGenRequests_cons (e : PipeEvent) (tr : List PipeEvent) :
    countGenRequests (e :: tr)
      = (if e.isGenRequest then 1 else 0) + countGenRequests tr := by
  simp only [countGenRequests, List.filter_cons]
  cases h : e.isGenRequest <;> simp [h, Nat.add_comm]

theorem countSleeps_nil : countSleeps [] = 0 := rfl

theorem countSleeps_cons (e : PipeEvent) (tr : List PipeEvent) :
    countSleeps (e :: tr)
      = (if e.isSleep then 1 else 0) + countSleeps tr := by
  simp only [countSleeps, List.filter_cons]
  cases h : e.isSleep <;> simp [h, Nat.add_comm]

theorem countDownloads_nil : countDownloads [] = 0 := rfl

theorem countDownloads_cons (e : PipeEvent) (tr : List PipeEvent) :
    countDownloads (e :: tr)
      = (if e.isDownload then 1 else 0) + countDownloads tr := by
  simp only [countDownloads, List.filter_cons]
  cases h : e.isDownload <;> simp [h, Nat.add_comm]

theorem probesFor_nil (rt : RepresentationType) : probesFor rt [] = 0 := rfl

theorem probesFor_cons (rt : RepresentationType) (e : PipeEvent)
    (tr : List PipeEvent) :
    probesFor rt (e :: tr)
      = (if e.isProbeFor rt then 1 else 0) + probesFor rt tr := by
  simp only [probesFor, List.filter_cons]
  cases h : e.isProbeFor rt <;> simp [h, Nat.add_comm]

/-- If the status check raises, `_process_file_representation` lets the
exception propagate after the single probe (source lines 144-146). -/
theorem process_probe_error (o : ClientOracle) (rt : RepresentationType)
    (fid : String) (b : Bool) (pi : Nat) (e : PyExn)
    (hchk : _file_representation_status_check (o.probe rt pi) = .error e) :
    _process_file_representation o rt fid b pi
      = (.error e, [.probeEv rt (.error e)]) := by
  unfold _process_file_representation
  rw [hchk]

/-- In the `NONE` branch the generation requester runs first; if it
raises, the exception propagates (source line 150). -/
theorem process_none_gen_error (o : ClientOracle) (rt : RepresentationType)
    (fid : String) (b : Bool) (pi : Nat) (res : FileRepresentationResult)
    (e : PyExn)
    (hchk : _file_representation_status_check (o.probe rt pi) = .ok res)
    (hs : res.status = .NONE)
    (hg : _request_file_representation_generation o res.info_url = .error e) :
    _process_file_representation o rt fid b pi
      = (.error e, [.probeEv rt (.ok res), .genRequestEv res.info_url]) := by
  unfold _process_file_representation
  rw [hchk]
  simp only [hs, hg, FileRepresentationStatus.value]

/-- `NONE` on the retried probe: request generation again, then return
the message dict (source lines 148-159 with `is_recursive=True`). -/
theorem process_none_true (o : ClientOracle) (rt : RepresentationType)
    (fid : String) (pi : Nat) (res : FileRepresentationResult) (dg : PipeDict)
    (hchk : _file_representation_status_check (o.probe rt pi) = .ok res)
    (hs : res.status = .NONE)
    (hg : _request_file_representation_generation o res.info_url = .ok dg) :
    _process_file_representation o rt fid true pi
      = (.ok { message := some (rt.value ++ " representation generation requested."),
               status := some "none" },
         [.probeEv rt (.ok res), .genRequestEv res.info_url]) := by
  unfold _process_file_representation
  rw [hchk]
  simp only [hs, hg, FileRepresentationStatus.value]

/-- `NONE` on the first probe: request generation, sleep, retry with
`is_recursive=True` on the next probe (source lines 148-155). -/
theorem process_none_false (o : ClientOracle) (rt : RepresentationType)
    (fid : String) (pi : Nat) (res : FileRepresentationResult) (dg : PipeDict)
    (hchk : _file_representation_status_check (o.probe rt pi) = .ok res)
    (hs : res.status = .NONE)
    (hg : _request_file_representation_generation o res.info_url = .ok dg) :
    _process_file_representation o rt fid false pi
      = ((_process_file_representation o rt fid true (pi + 1)).1,
         .probeEv rt (.ok res) :: .genRequestEv res.info_url :: .sleepEv
           :: (_process_file_representation o rt fid true (pi + 1)).2) := by
  conv_lhs => rw [_process_file_representation]
  rw [hchk]
  simp only [hs, hg, FileRepresentationStatus.value]

/-- `PENDING` on the retried probe: return the still-being-generated
message (source lines 161-170 with `is_recursive=True`). -/
theorem process_pending_true (o : ClientOracle) (rt : RepresentationType)
    (fid : String) (pi : Nat) (res : FileRepresentationResult)
    (hchk : _file_representation_status_check (o.probe rt pi) = .ok res)
    (hs : res.status = .PENDING) :
    _process_file_representation o rt fid true pi
      = (.ok { message := some (rt.value ++
                 " representation is still being generated. Please try again later."),
               status := some "pending" },
         [.probeEv rt (.ok res)]) := by
  unfold _process_file_representation
  rw [hchk]
  simp only [hs, FileRepresentationStatus.value]

/-- `PENDING` on the first probe: sleep, then retry with
`is_recursive=True` on the next probe (source lines 161-166). -/
theorem process_pending_false (o : ClientOracle) (rt : RepresentationType)
    (fid : String) (pi : Nat) (res : FileRepresentationResult)
    (hchk : _file_representation_status_check (o.probe rt pi) = .ok res)
    (hs : res.status = .PENDING) :
    _process_file_representation o rt fid false pi
      = ((_process_file_representation o rt fid true (pi + 1)).1,
         .probeEv rt (.ok res) :: .sleepEv
           :: (_process_file_representation o rt fid true (pi + 1)).2) := by
  conv_lhs => rw [_process_file_representation]
  rw [hchk]
  simp only [hs, FileRepresentationStatus.value]

/-- `SUCCESS`: the downloader result is returned unmodified, on either
value of `is_recursive` (source lines 172-173). -/
theorem process_success (o : ClientOracle) (rt : RepresentationType)
    (fid : String) (b : Bool) (pi : Nat) (res : FileRepresentationResult)
    (hchk : _file_representation_status_check (o.probe rt pi) = .ok res)
    (hs : res.status = .SUCCESS) :
    _process_file_representation o rt fid b pi
      = (_download_file_representation o res.content_url,
         [.probeEv rt (.ok res), .downloadEv res.content_url]) := by
  unfold _process_file_representation
  rw [hchk]
  simp only [hs, FileRepresentationStatus.value]

/-- `ERROR`: terminal error dict (source lines 175-179). -/
theorem process_error_status (o : ClientOracle) (rt : RepresentationType)
    (fid : String) (b : Bool) (pi : Nat) (res : FileRepresentationResult)
    (hchk : _file_representation_status_check (o.probe rt pi) = .ok res)
    (hs : res.status = .ERROR) :
    _process_file_representation o rt fid b pi
      = (.ok { error := some ("Error generating " ++ rt.value ++ " representation."),
               status := some "error" },
         [.probeEv rt (.ok res)]) := by
  unfold _process_file_representation
  rw [hchk]
  simp only [hs, FileRepresentationStatus.value]

/-- `IMPOSSIBLE`: terminal error dict (source lines 181-185). -/
theorem process_impossible_status (o : ClientOracle) (rt : RepresentationType)
    (fid : String) (b : Bool) (pi : Nat) (res : FileRepresentationResult)
    (hchk : _file_representation_status_check (o.probe rt pi) = .ok res)
    (hs : res.status = .IMPOSSIBLE) :
    _process_file_representation o rt fid b pi
      = (.ok { error := some (rt.value ++ " representation is impossible for this file."),
               status := some "impossible" },
         [.probeEv rt (.ok res)]) := by
  unfold _process_file_representation
  rw [hchk]
  simp only [hs, FileRepresentationStatus.value]

/-- `UNKNOWN`: the fall-through arm (source lines 187-190). -/
theorem process_unknown_status (o : ClientOracle) (rt : RepresentationType)
    (fid : String) (b : Bool) (pi : Nat) (res : FileRepresentationResult)
    (hchk : _file_representation_status_check (o.probe rt pi) = .ok res)
    (hs : res.status = .UNKNOWN) :
    _process_file_representation o rt fid b pi
      = (.ok { error := some ("Unknown status for " ++ rt.value ++ " representation."),
               status := some "unknown" },
         [.probeEv rt (.ok res)]) := by
  unfold _process_file_representation
  rw [hchk]
  simp only [hs, FileRepresentationStatus.value]

/-- Whether a pipeline call returned a Python value (rather than letting
an exception escape). -/
def returnsValue : Except PyExn PipeDict → Bool
  | .ok _ => true
  | .error _ => false

/-- The shape of a successful downloader return: never a `status` or
`message` key; a missing-template error dict, a content dict from a
successful GET of the resolved URL, or an error dict carrying the reason
of a caught `HTTPError`. -/
theorem download_ok_shape (o : ClientOracle) (cu : Option String) (d : PipeDict)
    (h : _download_file_representation o cu = .ok d) :
    d.status = none ∧ d.message = none
  ∧ (d = { error := some "No URL provided for representation download." }
     ∨ (∃ t c, cu = some t ∧ o.doRequest (resolve_url_template t) = .ok c
           ∧ d = { content := some c })
     ∨ (∃ t reason, cu = some t
           ∧ o.doRequest (resolve_url_template t) = .error (.httpError reason)
           ∧ d = { error := some reason })) := by
  cases cu with
  | none =>
    simp only [_download_file_representation, Except.ok.injEq] at h
    subst h
    exact ⟨rfl, rfl, Or.inl rfl⟩
  | some t =>
    cases hr : o.doRequest (resolve_url_template t) with
    | ok c =>
      simp only [_download_file_representation, hr, Except.ok.injEq] at h
      subst h
      exact ⟨rfl, rfl, Or.inr (Or.inl ⟨t, c, rfl, hr, rfl⟩)⟩
    | error e =>
      cases e with
      | boxAPIError m =>
        simp only [_download_file_representation, hr] at h
        exact Except.noConfusion h
      | valueError v =>
        simp only [_download_file_representation, hr] at h
        exact Except.noConfusion h
      | httpError reason =>
        simp only [_download_file_representation, hr, Except.ok.injEq] at h
        subst h
        exact ⟨rfl, rfl, Or.inr (Or.inr ⟨t, reason, rfl, hr, rfl⟩)⟩

/-- Fixture: a probe response with an empty representation entry list. -/
def rawEmptyEntries : RawFile := ⟨some ⟨[]⟩⟩

/-- Fixture: an entry in state `none` carrying an info URL. -/
def rawStateNone : RawFile :=
  ⟨some ⟨[⟨some ⟨"none"⟩, some ⟨some "https://info"⟩, none⟩]⟩⟩

/-- Fixture: an entry in state `none` with no URLs at all. -/
def rawStateNoneNoUrl : RawFile := ⟨some ⟨[⟨some ⟨"none"⟩, none, none⟩]⟩⟩

/-- Fixture: an entry in state `success` carrying a content URL
template. -/
def rawStateSuccess : RawFile :=
  ⟨some ⟨[⟨some ⟨"success"⟩, none,
          some ⟨some "https://dl/\x7b+asset_path\x7d/content"⟩⟩]⟩⟩

/-- Fixture: an entry reporting the unrecognized state `in_progress`. -/
def rawStateWeird : RawFile := ⟨some ⟨[⟨some ⟨"in_progress"⟩, none, none⟩]⟩⟩

/-- Oracle: every probe finds state `none` with an info URL; every GET
succeeds. -/
def oNone : ClientOracle := ⟨fun _ _ => .ok rawStateNone, fun _ => .ok ""⟩

/-- Oracle: every probe finds state `none` without URLs. -/
def oNoneNoUrl : ClientOracle := ⟨fun _ _ => .ok rawStateNoneNoUrl, fun _ => .ok ""⟩

/-- Oracle: every probe finds state `success`; every GET returns
"hello". -/
def oSuccess : ClientOracle := ⟨fun _ _ => .ok rawStateSuccess, fun _ => .ok "hello"⟩

/-- Oracle: every probe finds the unrecognized state `in_progress`. -/
def oWeird : ClientOracle := ⟨fun _ _ => .ok rawStateWeird, fun _ => .ok ""⟩

/-- Oracle: every probe raises a not-found `BoxAPIError`. -/
def o404 : ClientOracle := ⟨fun _ _ => .error (.boxAPIError "Not Found"), fun _ => .ok ""⟩

/-- Oracle whose GET echoes the requested URL, exposing which URL the
downloader fetched. -/
def oEcho : ClientOracle :=
  ⟨fun _ _ => .error (.boxAPIError "unused"), fun url => .ok url⟩

/-- Oracle: markdown probes find no entries, extracted-text probes find
state `success`; every GET returns "hello". -/
def oFallback : ClientOracle :=
  ⟨fun rt _ =>
      match rt with
      | .MARKDOWN => .ok rawEmptyEntries
      | .EXTRACTED_TEXT => .ok rawStateSuccess,
    fun _ => .ok "hello"⟩

/-- The descriptor produced by probing `rawStateSuccess`. -/
def resSuccess : FileRepresentationResult :=
  ⟨.SUCCESS, none, some "https://dl/\x7b+asset_path\x7d/content"⟩

/-- C7: for every kind and file id, a probe whose service response holds
zero representation entries for the requested kind yields a descriptor
with status `IMPOSSIBLE` and both URLs absent, without raising. -/
theorem spec_C7 (file : RawFile)
    (h : file.representations = none
       ∨ ∃ reps, file.representations = some reps ∧ reps.entries = []) :
    _file_representation_status_check (.ok file)
      = .ok { status := .IMPOSSIBLE, info_url := none, content_url := none } := by
  rcases h with h | ⟨reps, h1, h2⟩
  · simp [_file_representation_status_check, h]
  · simp [_file_representation_status_check, h1, h2]

/-- C7 witness at a concrete response with an empty entries list. -/
theorem spec_C7_witness :
    (rawEmptyEntries.representations = none
       ∨ ∃ reps, rawEmptyEntries.representations = some reps ∧ reps.entries = [])
  ∧ _file_representation_status_check (.ok rawEmptyEntries)
      = .ok { status := .IMPOSSIBLE, info_url := none, content_url := none } :=
  ⟨Or.inr ⟨⟨[]⟩, rfl, rfl⟩, spec_C7 rawEmptyEntries (Or.inr ⟨⟨[]⟩, rfl, rfl⟩)⟩

/-- C3 counterexample: the literal fixture template resolves to a URL
with a double slash, `"https://service/rep//content"`, not to
`"https://service/rep/content"` as claimed. -/
theorem spec_C3_cex :
    resolve_url_template "https://service/rep/\x7b+asset_path\x7d/content"
        ≠ "https://service/rep/content"
  ∧ resolve_url_template "https://service/rep/\x7b+asset_path\x7d/content"
        = "https://service/rep//content" := by
  decide

/-- C3 amended: `_download_file_representation` substitutes the empty
string for the placeholder `\x7b+asset_path\x7d` itself, keeping the
surrounding characters, so the fixture template resolves byte-for-byte
to `"https://service/rep//content"`, and that resolved URL is what is
fetched. -/
theorem spec_C3 :
    resolve_url_template "https://service/rep/\x7b+asset_path\x7d/content"
        = "https://service/rep//content"
  ∧ _download_file_representation oEcho
        (some "https://service/rep/\x7b+asset_path\x7d/content")
      = .ok { content := some "https://service/rep//content" } := by
  decide

/-- C5: a `BoxAPIError` raised during the probe is re-raised unmodified
by the status check, propagates through `_process_file_representation`
uncaught, and is rendered by `box_file_text_extract` as
`{"error": "Box API Error: <message>"}`. -/
theorem spec_C5 (o : ClientOracle) (fid m : String)
    (hp : o.probe .MARKDOWN 0 = .error (.boxAPIError m)) :
    (∀ e : PyExn, _file_representation_status_check (.error e) = .error e)
  ∧ (_process_file_representation o .MARKDOWN fid false 0).1
      = .error (.boxAPIError m)
  ∧ (box_file_text_extract o fid).1
      = .ok { error := some ("Box API Error: " ++ m) } := by
  have hchk : _file_representation_status_check (o.probe .MARKDOWN 0)
      = .error (.boxAPIError m) := by rw [hp]; rfl
  have hproc := process_probe_error o .MARKDOWN fid false 0 _ hchk
  refine ⟨fun e => rfl, by rw [hproc], ?_⟩
  simp [box_file_text_extract, hproc]

/-- C5 witness: a not-found error on probing file id "404". -/
theorem spec_C5_witness :
    o404.probe .MARKDOWN 0 = .error (.boxAPIError "Not Found")
  ∧ (box_file_text_extract o404 "404").1
      = .ok { error := some "Box API Error: Not Found" } := by
  have h := (spec_C5 o404 "404" "Not Found" rfl).2.2
  exact ⟨rfl, by rw [h]; decide⟩

/-- C9: when a probe returns `SUCCESS`, the downloader runs exactly
once, the generation requester never runs, no further probe occurs, and
the downloader's dict is returned unmodified, with no `status` key. -/
theorem spec_C9 (o : ClientOracle) (rt : RepresentationType) (fid : String)
    (b : Bool) (pi : Nat) (res : FileRepresentationResult)
    (hchk : _file_representation_status_check (o.probe rt pi) = .ok res)
    (hs : res.status = .SUCCESS) :
    _process_file_representation o rt fid b pi
      = (_download_file_representation o res.content_url,
         [.probeEv rt (.ok res), .downloadEv res.content_url])
  ∧ (∀ d : PipeDict, _download_file_representation o res.content_url = .ok d →
        d.status = none ∧ (d.content.isSome ∨ d.error.isSome)) := by
  refine ⟨process_success o rt fid b pi res hchk hs, fun d hd => ?_⟩
  obtain ⟨hst, _, hcase⟩ := download_ok_shape o res.content_url d hd
  refine ⟨hst, ?_⟩
  rcases hcase with h | ⟨t, c, _, _, h⟩ | ⟨t, reason, _, _, h⟩ <;> subst h <;> simp

/-- C9 witness: a concrete first probe returning `SUCCESS`. -/
theorem spec_C9_witness :
    _file_representation_status_check (oSuccess.probe .MARKDOWN 0) = .ok resSuccess
  ∧ _process_file_representation oSuccess .MARKDOWN "123" false 0
      = (_download_file_representation oSuccess resSuccess.content_url,
         [.probeEv .MARKDOWN (.ok resSuccess), .downloadEv resSuccess.content_url]) := by
  have h := spec_C9 oSuccess .MARKDOWN "123" false 0 resSuccess (by decide) (by decide)
  exact ⟨by decide, h.1⟩

/-- C2 counterexample: with a probe entry reporting the unrecognized
state "in_progress", the `ValueError` raised by the enum construction
escapes `box_file_text_extract`, which returns no dictionary. -/
theorem spec_C2_cex :
    (box_file_text_extract oWeird "123").1 = .error (.valueError "in_progress")
  ∧ returnsValue (box_file_text_extract oWeird "123").1 = false := by
  have hchk : _file_representation_status_check (oWeird.probe .MARKDOWN 0)
      = .error (.valueError "in_progress") := by decide
  have hproc := process_probe_error oWeird .MARKDOWN "123" false 0 _ hchk
  exact ⟨by simp [box_file_text_extract, hproc],
         by simp [box_file_text_extract, hproc, returnsValue]⟩

/-- C2 amended: a probe entry reporting a status string outside the
recognized set raises `ValueError` in the enum construction; the
exception is caught nowhere in the pipeline and escapes
`box_file_text_extract`, which catches only `BoxAPIError`. -/
theorem spec_C2 (o : ClientOracle) (fid s : String) (file : RawFile)
    (reps : RawRepresentations) (entry : RawEntry) (rest : List RawEntry)
    (hp : o.probe .MARKDOWN 0 = .ok file)
    (hr : file.representations = some reps)
    (he : reps.entries = entry :: rest)
    (hst : entry.status = some ⟨s⟩)
    (hbad : FileRepresentationStatus.ofString s = .error (.valueError s)) :
    (box_file_text_extract o fid).1 = .error (.valueError s) := by
  have hchk : _file_representation_status_check (o.probe .MARKDOWN 0)
      = .error (.valueError s) := by
    rw [hp]
    simp [_file_representation_status_check, hr, he, hst, hbad]
  have hproc := process_probe_error o .MARKDOWN fid false 0 _ hchk
  simp [box_file_text_extract, hproc]

/-- C2 witness: the amended behavior at the concrete state string
"in_progress". -/
theorem spec_C2_witness :
    FileRepresentationStatus.ofString "in_progress"
        = .error (.valueError "in_progress")
  ∧ (box_file_text_extract oWeird "456").1 = .error (.valueError "in_progress") := by
  refine ⟨by decide, ?_⟩
  exact spec_C2 oWeird "456" "in_progress" rawStateWeird
    ⟨[⟨some ⟨"in_progress"⟩, none, none⟩]⟩
    ⟨some ⟨"in_progress"⟩, none, none⟩ [] rfl rfl rfl rfl (by decide)

/-- The descriptor produced by probing `rawStateNone`. -/
def resNone : FileRepresentationResult := ⟨.NONE, some "https://info", none⟩

/-- The descriptor produced by probing `rawStateNoneNoUrl`. -/
def resNoneNoUrl : FileRepresentationResult := ⟨.NONE, none, none⟩

/-- C1 counterexample: with both probes returning `NONE`, the generation
requester is invoked twice during the top-level invocation, not exactly
once as claimed. -/
theorem spec_C1_cex :
    _file_representation_status_check (oNone.probe .MARKDOWN 0) = .ok resNone
  ∧ resNone.status = .NONE
  ∧ countGenRequests (_process_file_representation oNone .MARKDOWN "f" false 0).2 = 2
  ∧ countGenRequests (_process_file_representation oNone .MARKDOWN "f" false 0).2 ≠ 1 := by
  have hg : _request_file_representation_generation oNone resNone.info_url
      = .ok { message := some "Representation generation requested." } := by decide
  have hin := process_none_true oNone .MARKDOWN "f" 1 resNone _ (by decide) (by decide) hg
  have hout := process_none_false oNone .MARKDOWN "f" 0 resNone _ (by decide) (by decide) hg
  simp only [Nat.zero_add] at hout
  rw [hin] at hout
  refine ⟨by decide, by decide, ?_, ?_⟩ <;> rw [hout] <;> decide

/-- C1 corrected: with a first probe returning `NONE`, the requester is
invoked once per probe that returns `NONE` — hence twice when the second
probe still returns `NONE` — the pipeline waits once, probes exactly a
second time, and returns a `message` result (not an `error`) with status
"none", with no third probe. -/
theorem spec_C1 (o : ClientOracle) (rt : RepresentationType) (fid : String)
    (res1 res2 : FileRepresentationResult) (d1 d2 : PipeDict)
    (h1 : _file_representation_status_check (o.probe rt 0) = .ok res1)
    (hs1 : res1.status = .NONE)
    (hg1 : _request_file_representation_generation o res1.info_url = .ok d1)
    (h2 : _file_representation_status_check (o.probe rt 1) = .ok res2)
    (hs2 : res2.status = .NONE)
    (hg2 : _request_file_representation_generation o res2.info_url = .ok d2) :
    _process_file_representation o rt fid false 0
      = (.ok { message := some (rt.value ++ " representation generation requested."),
               status := some "none" },
         [.probeEv rt (.ok res1), .genRequestEv res1.info_url, .sleepEv,
          .probeEv rt (.ok res2), .genRequestEv res2.info_url])
  ∧ countProbes (_process_file_representation o rt fid false 0).2 = 2
  ∧ countGenRequests (_process_file_representation o rt fid false 0).2 = 2
  ∧ countSleeps (_process_file_representation o rt fid false 0).2 = 1 := by
  have hin := process_none_true o rt fid 1 res2 d2 h2 hs2 hg2
  have hout := process_none_false o rt fid 0 res1 d1 h1 hs1 hg1
  simp only [Nat.zero_add] at hout
  rw [hin] at hout
  refine ⟨hout, ?_, ?_, ?_⟩ <;> rw [hout] <;>
    simp [countProbes_cons, countGenRequests_cons, countSleeps_cons,
      countProbes_nil, countGenRequests_nil, countSleeps_nil,
      PipeEvent.isProbe, PipeEvent.isGenRequest, PipeEvent.isSleep]

/-- C1 witness: the amended behavior at a concrete all-`NONE` oracle. -/
theorem spec_C1_witness :
    _process_file_representation oNone .MARKDOWN "f2" false 0
      = (.ok { message := some "markdown representation generation requested.",
               status := some "none" },
         [.probeEv .MARKDOWN (.ok resNone), .genRequestEv (some "https://info"),
          .sleepEv, .probeEv .MARKDOWN (.ok resNone),
          .genRequestEv (some "https://info")])
  ∧ countProbes (_process_file_representation oNone .MARKDOWN "f2" false 0).2 = 2 := by
  have h := spec_C1 oNone .MARKDOWN "f2" resNone resNone
    { message := some "Representation generation requested." }
    { message := some "Representation generation requested." }
    (by decide) (by decide) (by decide) (by decide) (by decide) (by decide)
  refine ⟨?_, h.2.1⟩
  rw [h.1]
  decide

/-- C10: with `NONE` status and no info URL on both probes, the
requester's error dict is produced but discarded, no request reaches the
service (each requester call records `info_url = none`), and the caller
still receives the "generation requested" message with status "none". -/
theorem spec_C10 (o : ClientOracle) (rt : RepresentationType) (fid : String)
    (res1 res2 : FileRepresentationResult)
    (h1 : _file_representation_status_check (o.probe rt 0) = .ok res1)
    (hs1 : res1.status = .NONE) (hu1 : res1.info_url = none)
    (h2 : _file_representation_status_check (o.probe rt 1) = .ok res2)
    (hs2 : res2.status = .NONE) (hu2 : res2.info_url = none) :
    _request_file_representation_generation o res1.info_url
      = .ok { error := some "No URL provided for representation generation." }
  ∧ _process_file_representation o rt fid false 0
      = (.ok { message := some (rt.value ++ " representation generation requested."),
               status := some "none" },
         [.probeEv rt (.ok res1), .genRequestEv none, .sleepEv,
          .probeEv rt (.ok res2), .genRequestEv none])
  ∧ (_process_file_representation o rt fid false 0).1
      ≠ .ok { error := some "No URL provided for representation generation." } := by
  have hg1 : _request_file_representation_generation o res1.info_url
      = .ok { error := some "No URL provided for representation generation." } := by
    rw [hu1]; rfl
  have hg2 : _request_file_representation_generation o res2.info_url
      = .ok { error := some "No URL provided for representation generation." } := by
    rw [hu2]; rfl
  have hin := process_none_true o rt fid 1 res2 _ h2 hs2 hg2
  have hout := process_none_false o rt fid 0 res1 _ h1 hs1 hg1
  simp only [Nat.zero_add] at hout
  rw [hin] at hout
  rw [hu1, hu2] at hout
  refine ⟨hg1, hout, ?_⟩
  rw [hout]
  simp

/-- C10 witness at a concrete `NONE`-without-URL oracle. -/
theorem spec_C10_witness :
    _process_file_representation oNoneNoUrl .MARKDOWN "f" false 0
      = (.ok { message := some "markdown representation generation requested.",
               status := some "none" },
         [.probeEv .MARKDOWN (.ok resNoneNoUrl), .genRequestEv none, .sleepEv,
          .probeEv .MARKDOWN (.ok resNoneNoUrl), .genRequestEv none]) := by
  have h := spec_C10 oNoneNoUrl .MARKDOWN "f" resNoneNoUrl resNoneNoUrl
    (by decide) (by decide) (by decide) (by decide) (by decide) (by decide)
  rw [h.2.1]
  decide

/-- Counts of a retried (`is_recursive = true`) call: exactly one probe
and no sleep, whatever the oracle answers. -/
theorem process_true_counts (o : ClientOracle) (rt : RepresentationType)
    (fid : String) (pi : Nat) :
    countProbes (_process_file_representation o rt fid true pi).2 = 1
  ∧ countSleeps (_process_file_representation o rt fid true pi).2 = 0 := by
  cases hchk : _file_representation_status_check (o.probe rt pi) with
  | error e =>
    rw [process_probe_error o rt fid true pi e hchk]
    simp [countProbes_cons, countProbes_nil, countSleeps_cons, countSleeps_nil,
      PipeEvent.isProbe, PipeEvent.isSleep]
  | ok res =>
    cases hs : res.status with
    | NONE =>
      cases hg : _request_file_representation_generation o res.info_url with
      | error e =>
        rw [process_none_gen_error o rt fid true pi res e hchk hs hg]
        simp [countProbes_cons, countProbes_nil, countSleeps_cons, countSleeps_nil,
          PipeEvent.isProbe, PipeEvent.isSleep, PipeEvent.isGenRequest]
      | ok dg =>
        rw [process_none_true o rt fid pi res dg hchk hs hg]
        simp [countProbes_cons, countProbes_nil, countSleeps_cons, countSleeps_nil,
          PipeEvent.isProbe, PipeEvent.isSleep, PipeEvent.isGenRequest]
    | PENDING =>
      rw [process_pending_true o rt fid pi res hchk hs]
      simp [countProbes_cons, countProbes_nil, countSleeps_cons, countSleeps_nil,
        PipeEvent.isProbe, PipeEvent.isSleep]
    | SUCCESS =>
      rw [process_success o rt fid true pi res hchk hs]
      simp [countProbes_cons, countProbes_nil, countSleeps_cons, countSleeps_nil,
        PipeEvent.isProbe, PipeEvent.isSleep, PipeEvent.isDownload]
    | ERROR =>
      rw [process_error_status o rt fid true pi res hchk hs]
      simp [countProbes_cons, countProbes_nil, countSleeps_cons, countSleeps_nil,
        PipeEvent.isProbe, PipeEvent.isSleep]
    | IMPOSSIBLE =>
      rw [process_impossible_status o rt fid true pi res hchk hs]
      simp [countProbes_cons, countProbes_nil, countSleeps_cons, countSleeps_nil,
        PipeEvent.isProbe, PipeEvent.isSleep]
    | UNKNOWN =>
      rw [process_unknown_status o rt fid true pi res hchk hs]
      simp [countProbes_cons, countProbes_nil, countSleeps_cons, countSleeps_nil,
        PipeEvent.isProbe, PipeEvent.isSleep]

/-- Counts of any call: at most two probes and at most one sleep. -/
theorem process_counts (o : ClientOracle) (rt : RepresentationType)
    (fid : String) (b : Bool) (pi : Nat) :
    countProbes (_process_file_representation o rt fid b pi).2 ≤ 2
  ∧ countSleeps (_process_file_representation o rt fid b pi).2 ≤ 1 := by
  cases b with
  | true =>
    obtain ⟨hp, hsl⟩ := process_true_counts o rt fid pi
    rw [hp, hsl]
    exact ⟨by omega, by omega⟩
  | false =>
    cases hchk : _file_representation_status_check (o.probe rt pi) with
    | error e =>
      rw [process_probe_error o rt fid false pi e hchk]
      simp [countProbes_cons, countProbes_nil, countSleeps_cons, countSleeps_nil,
        PipeEvent.isProbe, PipeEvent.isSleep]
    | ok res =>
      cases hs : res.status with
      | NONE =>
        cases hg : _request_file_representation_generation o res.info_url with
        | error e =>
          rw [process_none_gen_error o rt fid false pi res e hchk hs hg]
          simp [countProbes_cons, countProbes_nil, countSleeps_cons, countSleeps_nil,
            PipeEvent.isProbe, PipeEvent.isSleep, PipeEvent.isGenRequest]
        | ok dg =>
          rw [process_none_false o rt fid pi res dg hchk hs hg]
          obtain ⟨hp, hsl⟩ := process_true_counts o rt fid (pi + 1)
          constructor
          · simp [countProbes_cons, PipeEvent.isProbe, PipeEvent.isGenRequest,
              PipeEvent.isSleep, hp]
          · simp [countSleeps_cons, PipeEvent.isProbe, PipeEvent.isGenRequest,
              PipeEvent.isSleep, hsl]
      | PENDING =>
        rw [process_pending_false o rt fid pi res hchk hs]
        obtain ⟨hp, hsl⟩ := process_true_counts o rt fid (pi + 1)
        constructor
        · simp [countProbes_cons, PipeEvent.isProbe, PipeEvent.isSleep, hp]
        · simp [countSleeps_cons, PipeEvent.isProbe, PipeEvent.isSleep, hsl]
      | SUCCESS =>
        rw [process_success o rt fid false pi res hchk hs]
        simp [countProbes_cons, countProbes_nil, countSleeps_cons, countSleeps_nil,
          PipeEvent.isProbe, PipeEvent.isSleep, PipeEvent.isDownload]
      | ERROR =>
        rw [process_error_status o rt fid false pi res hchk hs]
        simp [countProbes_cons, countProbes_nil, countSleeps_cons, countSleeps_nil,
          PipeEvent.isProbe, PipeEvent.isSleep]
      | IMPOSSIBLE =>
        rw [process_impossible_status o rt fid false pi res hchk hs]
        simp [countProbes_cons, countProbes_nil, countSleeps_cons, countSleeps_nil,
          PipeEvent.isProbe, PipeEvent.isSleep]
      | UNKNOWN =>
        rw [process_unknown_status o rt fid false pi res hchk hs]
        simp [countProbes_cons, countProbes_nil, countSleeps_cons, countSleeps_nil,
          PipeEvent.isProbe, PipeEvent.isSleep]

/-- C8: `_process_file_representation` is total (it is defined by
bounded recursion on the retry flag), performs at most two probes and at
most one sleep per kind per top-level call, and a retried call probes
exactly once — the recursion is taken at most once, with no unbounded
polling loop. -/
theorem spec_C8 (o : ClientOracle) (rt : RepresentationType) (fid : String)
    (b : Bool) (pi : Nat) :
    countProbes (_process_file_representation o rt fid b pi).2 ≤ 2
  ∧ countSleeps (_process_file_representation o rt fid b pi).2 ≤ 1
  ∧ countProbes (_process_file_representation o rt fid true pi).2 = 1
  ∧ countSleeps (_process_file_representation o rt fid true pi).2 = 0 :=
  ⟨(process_counts o rt fid b pi).1, (process_counts o rt fid b pi).2,
   (process_true_counts o rt fid pi).1, (process_true_counts o rt fid pi).2⟩

/-- A retried call records probes only for its own kind. -/
theorem probesFor_true_zero (o : ClientOracle) (rt rt' : RepresentationType)
    (fid : String) (pi : Nat) (h : rt' ≠ rt) :
    probesFor rt' (_process_file_representation o rt fid true pi).2 = 0 := by
  have h' : rt ≠ rt' := Ne.symm h
  cases hchk : _file_representation_status_check (o.probe rt pi) with
  | error e =>
    rw [process_probe_error o rt fid true pi e hchk]
    simp [probesFor_cons, probesFor_nil, PipeEvent.isProbeFor, h']
  | ok res =>
    cases hs : res.status with
    | NONE =>
      cases hg : _request_file_representation_generation o res.info_url with
      | error e =>
        rw [process_none_gen_error o rt fid true pi res e hchk hs hg]
        simp [probesFor_cons, probesFor_nil, PipeEvent.isProbeFor, h']
      | ok dg =>
        rw [process_none_true o rt fid pi res dg hchk hs hg]
        simp [probesFor_cons, probesFor_nil, PipeEvent.isProbeFor, h']
    | PENDING =>
      rw [process_pending_true o rt fid pi res hchk hs]
      simp [probesFor_cons, probesFor_nil, PipeEvent.isProbeFor, h']
    | SUCCESS =>
      rw [process_success o rt fid true pi res hchk hs]
      simp [probesFor_cons, probesFor_nil, PipeEvent.isProbeFor, h']
    | ERROR =>
      rw [process_error_status o rt fid true pi res hchk hs]
      simp [probesFor_cons, probesFor_nil, PipeEvent.isProbeFor, h']
    | IMPOSSIBLE =>
      rw [process_impossible_status o rt fid true pi res hchk hs]
      simp [probesFor_cons, probesFor_nil, PipeEvent.isProbeFor, h']
    | UNKNOWN =>
      rw [process_unknown_status o rt fid true pi res hchk hs]
      simp [probesFor_cons, probesFor_nil, PipeEvent.isProbeFor, h']

/-- Any call records probes only for its own kind. -/
theorem probesFor_zero (o : ClientOracle) (rt rt' : RepresentationType)
    (fid : String) (b : Bool) (pi : Nat) (h : rt' ≠ rt) :
    probesFor rt' (_process_file_representation o rt fid b pi).2 = 0 := by
  have h' : rt ≠ rt' := Ne.symm h
  cases b with
  | true => exact probesFor_true_zero o rt rt' fid pi h
  | false =>
    cases hchk : _file_representation_status_check (o.probe rt pi) with
    | error e =>
      rw [process_probe_error o rt fid false pi e hchk]
      simp [probesFor_cons, probesFor_nil, PipeEvent.isProbeFor, h']
    | ok res =>
      cases hs : res.status with
      | NONE =>
        cases hg : _request_file_representation_generation o res.info_url with
        | error e =>
          rw [process_none_gen_error o rt fid false pi res e hchk hs hg]
          simp [probesFor_cons, probesFor_nil, PipeEvent.isProbeFor, h']
        | ok dg =>
          rw [process_none_false o rt fid pi res dg hchk hs hg]
          have hz := probesFor_true_zero o rt rt' fid (pi + 1) h
          simp [probesFor_cons, PipeEvent.isProbeFor, h', hz]
      | PENDING =>
        rw [process_pending_false o rt fid pi res hchk hs]
        have hz := probesFor_true_zero o rt rt' fid (pi + 1) h
        simp [probesFor_cons, PipeEvent.isProbeFor, h', hz]
      | SUCCESS =>
        rw [process_success o rt fid false pi res hchk hs]
        simp [probesFor_cons, probesFor_nil, PipeEvent.isProbeFor, h']
      | ERROR =>
        rw [process_error_status o rt fid false pi res hchk hs]
        simp [probesFor_cons, probesFor_nil, PipeEvent.isProbeFor, h']
      | IMPOSSIBLE =>
        rw [process_impossible_status o rt fid false pi res hchk hs]
        simp [probesFor_cons, probesFor_nil, PipeEvent.isProbeFor, h']
      | UNKNOWN =>
        rw [process_unknown_status o rt fid false pi res hchk hs]
        simp [probesFor_cons, probesFor_nil, PipeEvent.isProbeFor, h']

/-- C4: `box_file_text_extract` runs the markdown pipeline first; it
falls back to the extracted-text pipeline if and only if the markdown
result's status is "impossible", "error" or "unknown", in which case the
second result is returned; in every other markdown outcome the markdown
result is returned unchanged and extracted-text is never probed. -/
theorem spec_C4 (o : ClientOracle) (fid : String) (d1 : PipeDict)
    (t1 : List PipeEvent)
    (h1 : _process_file_representation o .MARKDOWN fid false 0 = (.ok d1, t1)) :
    ((d1.status ≠ some "impossible" ∧ d1.status ≠ some "error"
        ∧ d1.status ≠ some "unknown") →
      box_file_text_extract o fid = (.ok d1, t1)
        ∧ probesFor .EXTRACTED_TEXT t1 = 0)
  ∧ (¬(d1.status ≠ some "impossible" ∧ d1.status ≠ some "error"
        ∧ d1.status ≠ some "unknown") →
      ∀ (d2 : PipeDict) (t2 : List PipeEvent),
        _process_file_representation o .EXTRACTED_TEXT fid false 0 = (.ok d2, t2) →
          box_file_text_extract o fid = (.ok d2, t1 ++ t2)) := by
  constructor
  · intro hno
    constructor
    · simp only [box_file_text_extract, h1, FileRepresentationStatus.value]
      rw [if_pos hno]
    · have hz := probesFor_zero o .MARKDOWN .EXTRACTED_TEXT fid false 0 (by decide)
      rw [h1] at hz
      exact hz
  · intro hyes d2 t2 h2
    simp only [box_file_text_extract, h1, FileRepresentationStatus.value]
    rw [if_neg hyes, h2]

/-- Fixtures for the C4 witness: the markdown attempt is impossible and
the extracted-text attempt succeeds. -/
def resImp : FileRepresentationResult := ⟨.IMPOSSIBLE, none, none⟩

/-- Markdown result dict of the C4 witness. -/
def dMdImp : PipeDict :=
  { error := some "markdown representation is impossible for this file.",
    status := some "impossible" }

/-- Markdown trace of the C4 witness. -/
def tMdImp : List PipeEvent := [.probeEv .MARKDOWN (.ok resImp)]

/-- Extracted-text result dict of the C4 witness. -/
def dExtOk : PipeDict := { content := some "hello" }

/-- Extracted-text trace of the C4 witness. -/
def tExt : List PipeEvent :=
  [.probeEv .EXTRACTED_TEXT (.ok resSuccess), .downloadEv resSuccess.content_url]

/-- C4 witness: markdown impossible, fallback succeeds. -/
theorem spec_C4_witness :
    _process_file_representation oFallback .MARKDOWN "123" false 0
      = (.ok dMdImp, tMdImp)
  ∧ box_file_text_extract oFallback "123" = (.ok dExtOk, tMdImp ++ tExt) := by
  have h1 : _process_file_representation oFallback .MARKDOWN "123" false 0
      = (.ok dMdImp, tMdImp) := by
    rw [process_impossible_status oFallback .MARKDOWN "123" false 0 resImp
      (by decide) (by decide)]
    decide
  have h2 : _process_file_representation oFallback .EXTRACTED_TEXT "123" false 0
      = (.ok dExtOk, tExt) := by
    rw [process_success oFallback .EXTRACTED_TEXT "123" false 0 resSuccess
      (by decide) (by decide)]
    decide
  exact ⟨h1, (spec_C4 oFallback "123" dMdImp tMdImp h1).2 (by decide) dExtOk tExt h2⟩

/-- The in-pipeline sources of an `error` key: a terminal
`error`/`impossible`/`unknown` status, a missing content URL template,
or a caught `HTTPError` from the download of a resolved template. -/
def ErrorCause (o : ClientOracle) (d : PipeDict) : Prop :=
  d.status = some "error" ∨ d.status = some "impossible"
  ∨ d.status = some "unknown"
  ∨ d.error = some "No URL provided for representation download."
  ∨ ∃ t reason, o.doRequest (resolve_url_template t) = .error (.httpError reason)
      ∧ d.error = some reason

/-- The result-shape invariant of one per-kind pipeline run: exactly one
primary key; `content` only after a `SUCCESS` probe whose resolved
content URL was fetched successfully; `error` only from an
`ErrorCause`. -/
def ResultShape (o : ClientOracle) (rt : RepresentationType) (d : PipeDict) : Prop :=
  d.primaryCount = 1
  ∧ (d.content.isSome → ∃ i res t c,
        _file_representation_status_check (o.probe rt i) = .ok res
      ∧ res.status = .SUCCESS ∧ res.content_url = some t
      ∧ o.doRequest (resolve_url_template t) = .ok c ∧ d.content = some c)
  ∧ (d.error.isSome → ErrorCause o d)

/-- The result-shape invariant at the public boundary: as `ResultShape`,
over either kind, with the extra error source of a `BoxAPIError` caught
at the boundary. -/
def BoxResultShape (o : ClientOracle) (d : PipeDict) : Prop :=
  d.primaryCount = 1
  ∧ (d.content.isSome → ∃ rt i res t c,
        _file_representation_status_check (o.probe rt i) = .ok res
      ∧ res.status = .SUCCESS ∧ res.content_url = some t
      ∧ o.doRequest (resolve_url_template t) = .ok c ∧ d.content = some c)
  ∧ (d.error.isSome →
        ErrorCause o d ∨ ∃ m, d.error = some ("Box API Error: " ++ m))

/-- A per-kind shape yields the boundary shape. -/
theorem ResultShape.toBox (o : ClientOracle) (rt : RepresentationType)
    (d : PipeDict) (h : ResultShape o rt d) : BoxResultShape o d := by
  obtain ⟨h1, h2, h3⟩ := h
  exact ⟨h1, fun hc => ⟨rt, h2 hc⟩, fun he => Or.inl (h3 he)⟩

/-- Shape of any successful result of a retried call. -/
theorem process_true_shape (o : ClientOracle) (rt : RepresentationType)
    (fid : String) (pi : Nat) (d : PipeDict)
    (h : (_process_file_representation o rt fid true pi).1 = .ok d) :
    ResultShape o rt d := by
  cases hchk : _file_representation_status_check (o.probe rt pi) with
  | error e =>
    rw [process_probe_error o rt fid true pi e hchk] at h
    exact absurd h (by simp)
  | ok res =>
    cases hs : res.status with
    | NONE =>
      cases hg : _request_file_representation_generation o res.info_url with
      | error e =>
        rw [process_none_gen_error o rt fid true pi res e hchk hs hg] at h
        exact absurd h (by simp)
      | ok dg =>
        rw [process_none_true o rt fid pi res dg hchk hs hg] at h
        simp only [Except.ok.injEq] at h
        subst h
        exact ⟨by simp [PipeDict.primaryCount], by simp, by simp⟩
    | PENDING =>
      rw [process_pending_true o rt fid pi res hchk hs] at h
      simp only [Except.ok.injEq] at h
      subst h
      exact ⟨by simp [PipeDict.primaryCount], by simp, by simp⟩
    | SUCCESS =>
      rw [process_success o rt fid true pi res hchk hs] at h
      have hd : _download_file_representation o res.content_url = .ok d := h
      obtain ⟨hst, hmsg, hcase⟩ := download_ok_shape o res.content_url d hd
      rcases hcase with hdd | ⟨t, c, hcu, hreq, hdd⟩ | ⟨t, reason, hcu, hreq, hdd⟩
      · subst hdd
        exact ⟨by simp [PipeDict.primaryCount], by simp,
               fun _ => Or.inr (Or.inr (Or.inr (Or.inl rfl)))⟩
      · subst hdd
        exact ⟨by simp [PipeDict.primaryCount],
               fun _ => ⟨pi, res, t, c, hchk, hs, hcu, hreq, rfl⟩, by simp⟩
      · subst hdd
        exact ⟨by simp [PipeDict.primaryCount], by simp,
               fun _ => Or.inr (Or.inr (Or.inr (Or.inr ⟨t, reason, hreq, rfl⟩)))⟩
    | ERROR =>
      rw [process_error_status o rt fid true pi res hchk hs] at h
      simp only [Except.ok.injEq] at h
      subst h
      exact ⟨by simp [PipeDict.primaryCount], by simp, fun _ => Or.inl rfl⟩
    | IMPOSSIBLE =>
      rw [process_impossible_status o rt fid true pi res hchk hs] at h
      simp only [Except.ok.injEq] at h
      subst h
      exact ⟨by simp [PipeDict.primaryCount], by simp,
             fun _ => Or.inr (Or.inl rfl)⟩
    | UNKNOWN =>
      rw [process_unknown_status o rt fid true pi res hchk hs] at h
      simp only [Except.ok.injEq] at h
      subst h
      exact ⟨by simp [PipeDict.primaryCount], by simp,
             fun _ => Or.inr (Or.inr (Or.inl rfl))⟩

/-- Shape of any successful result of `_process_file_representation`. -/
theorem process_shape (o : ClientOracle) (rt : RepresentationType)
    (fid : String) (b : Bool) (pi : Nat) (d : PipeDict)
    (h : (_process_file_representation o rt fid b pi).1 = .ok d) :
    ResultShape o rt d := by
  cases b with
  | true => exact process_true_shape o rt fid pi d h
  | false =>
    cases hchk : _file_representation_status_check (o.probe rt pi) with
    | error e =>
      rw [process_probe_error o rt fid false pi e hchk] at h
      exact absurd h (by simp)
    | ok res =>
      cases hs : res.status with
      | NONE =>
        cases hg : _request_file_representation_generation o res.info_url with
        | error e =>
          rw [process_none_gen_error o rt fid false pi res e hchk hs hg] at h
          exact absurd h (by simp)
        | ok dg =>
          rw [process_none_false o rt fid pi res dg hchk hs hg] at h
          exact process_true_shape o rt fid (pi + 1) d h
      | PENDING =>
        rw [process_pending_false o rt fid pi res hchk hs] at h
        exact process_true_shape o rt fid (pi + 1) d h
      | SUCCESS =>
        rw [process_success o rt fid false pi res hchk hs,
          ← process_success o rt fid true pi res hchk hs] at h
        exact process_true_shape o rt fid pi d h
      | ERROR =>
        rw [process_error_status o rt fid false pi res hchk hs,
          ← process_error_status o rt fid true pi res hchk hs] at h
        exact process_true_shape o rt fid pi d h
      | IMPOSSIBLE =>
        rw [process_impossible_status o rt fid false pi res hchk hs,
          ← process_impossible_status o rt fid true pi res hchk hs] at h
        exact process_true_shape o rt fid pi d h
      | UNKNOWN =>
        rw [process_unknown_status o rt fid false pi res hchk hs,
          ← process_unknown_status o rt fid true pi res hchk hs] at h
        exact process_true_shape o rt fid pi d h

/-- C6: every value returned by the pipeline — by
`_process_file_representation` at any recursion depth and by
`box_file_text_extract` — carries exactly one primary key among
`content`, `message`, `error` (optionally with a `status` key);
`content` appears only when a probe returned `SUCCESS` and the download
of the resolved content URL succeeded; `error` appears only on a
download failure, a terminal `error`/`impossible`/`unknown` status, or
(at the boundary) a caught `BoxAPIError`. -/
theorem spec_C6 :
    (∀ (o : ClientOracle) (rt : RepresentationType) (fid : String) (b : Bool)
        (pi : Nat) (d : PipeDict),
        (_process_file_representation o rt fid b pi).1 = .ok d →
          ResultShape o rt d)
  ∧ (∀ (o : ClientOracle) (fid : String) (d : PipeDict),
        (box_file_text_extract o fid).1 = .ok d → BoxResultShape o d) := by
  refine ⟨process_shape, fun o fid d h => ?_⟩
  rcases hm : _process_file_representation o .MARKDOWN fid false 0 with ⟨r1, t1⟩
  cases r1 with
  | error e =>
    cases e with
    | boxAPIError m =>
      have hbox : (box_file_text_extract o fid).1
          = .ok { error := some ("Box API Error: " ++ m) } := by
        simp [box_file_text_extract, hm]
      rw [hbox] at h
      simp only [Except.ok.injEq] at h
      subst h
      exact ⟨by simp [PipeDict.primaryCount], by simp,
             fun _ => Or.inr ⟨m, rfl⟩⟩
    | valueError v =>
      have hbox : (box_file_text_extract o fid).1 = .error (.valueError v) := by
        simp [box_file_text_extract, hm]
      rw [hbox] at h
      exact absurd h (by simp)
    | httpError r =>
      have hbox : (box_file_text_extract o fid).1 = .error (.httpError r) := by
        simp [box_file_text_extract, hm]
      rw [hbox] at h
      exact absurd h (by simp)
  | ok d1 =>
    by_cases hcond : (d1.status ≠ some "impossible" ∧ d1.status ≠ some "error"
        ∧ d1.status ≠ some "unknown")
    · have hbox : box_file_text_extract o fid = (.ok d1, t1) := by
        simp only [box_file_text_extract, hm, FileRepresentationStatus.value]
        rw [if_pos hcond]
      rw [hbox] at h
      simp only [Except.ok.injEq] at h
      subst h
      exact (process_shape o .MARKDOWN fid false 0 d1 (by rw [hm])).toBox o .MARKDOWN d1
    · rcases he : _process_file_representation o .EXTRACTED_TEXT fid false 0 with ⟨r2, t2⟩
      cases r2 with
      | error e =>
        cases e with
        | boxAPIError m =>
          have hbox : (box_file_text_extract o fid).1
              = .ok { error := some ("Box API Error: " ++ m) } := by
            simp only [box_file_text_extract, hm, FileRepresentationStatus.value]
            rw [if_neg hcond, he]
          rw [hbox] at h
          simp only [Except.ok.injEq] at h
          subst h
          exact ⟨by simp [PipeDict.primaryCount], by simp,
                 fun _ => Or.inr ⟨m, rfl⟩⟩
        | valueError v =>
          have hbox : (box_file_text_extract o fid).1 = .error (.valueError v) := by
            simp only [box_file_text_extract, hm, FileRepresentationStatus.value]
            rw [if_neg hcond, he]
          rw [hbox] at h
          exact absurd h (by simp)
        | httpError r =>
          have hbox : (box_file_text_extract o fid).1 = .error (.httpError r) := by
            simp only [box_file_text_extract, hm, FileRepresentationStatus.value]
            rw [if_neg hcond, he]
          rw [hbox] at h
          exact absurd h (by simp)
      | ok d2 =>
        have hbox : (box_file_text_extract o fid).1 = .ok d2 := by
          simp only [box_file_text_extract, hm, FileRepresentationStatus.value]
          rw [if_neg hcond, he]
        rw [hbox] at h
        simp only [Except.ok.injEq] at h
        subst h
        exact (process_shape o .EXTRACTED_TEXT fid false 0 d2
          (by rw [he])).toBox o .EXTRACTED_TEXT d2

/-- C6 witness: a concrete success-path run satisfying both shapes. -/
theorem spec_C6_witness :
    (_process_file_representation oSuccess .MARKDOWN "123" false 0).1
      = .ok { content := some "hello" }
  ∧ ResultShape oSuccess .MARKDOWN { content := some "hello" }
  ∧ (box_file_text_extract oSuccess "123").1 = .ok { content := some "hello" }
  ∧ BoxResultShape oSuccess { content := some "hello" } := by
  have hp : _process_file_representation oSuccess .MARKDOWN "123" false 0
      = (.ok { content := some "hello" },
         [.probeEv .MARKDOWN (.ok resSuccess), .downloadEv resSuccess.content_url]) := by
    rw [process_success oSuccess .MARKDOWN "123" false 0 resSuccess
      (by decide) (by decide)]
    decide
  have h1 : (_process_file_representation oSuccess .MARKDOWN "123" false 0).1
      = .ok { content := some "hello" } := by rw [hp]
  have hb : (box_file_text_extract oSuccess "123").1
      = .ok { content := some "hello" } := by
    simp [box_file_text_extract, hp]
  exact ⟨h1, spec_C6.1 oSuccess .MARKDOWN "123" false 0 _ h1,
         hb, spec_C6.2 oSuccess "123" _ hb⟩

end BoxToolkit
